import Mathlib

/-
Verification development for the fgp-browser repository.

Shallow embedding of the parts of the program that the specification talks
about:
  * selector resolution and the interaction primitives (src/browser/client.rs)
  * the session registry (src/browser/client.rs)
  * the accessibility snapshot extractor (src/browser/aria.rs)
  * the extension bridge correlation layer (src/extension_bridge.rs)
  * parameter handling of the dispatch layer (src/service.rs)

Machine strings are Lean strings, machine integers are Nat or Int (the only
arithmetic performed on them here is bitwise or of values below 16, so no
overflow reasoning is needed), fallible operations return Except, and the
mutable state of the program (session registry, pending-request table) is
passed explicitly.
-/

/- ===================== JSON values ===================== -/

/-- Model of serde_json values as far as the claims exercise them: the code
under verification only ever asks a value whether it is a string (as_str) or a
boolean (as_bool); compound values behave exactly like any other non-string,
non-boolean value under those two probes, so a scalar model is faithful for
every theorem below. -/
inductive Json where
  | str (s : String)
  | num (n : Int)
  | bool (b : Bool)
  | null
deriving DecidableEq, Repr

/-- serde_json Value::as_str. -/
def Json.asStr : Json → Option String
  | .str s => some s
  | _ => none

/-- serde_json Value::as_bool. -/
def Json.asBool : Json → Option Bool
  | .bool b => some b
  | _ => none

/- ===================== Decimal rendering ===================== -/

/-- Decimal digits of a number, most significant first, prepended to an
accumulator.  This models what format! with a usize argument produces in
the source (the format machinery renders the counter in decimal).  Written
with explicit fuel so that concrete instances reduce inside the kernel. -/
def natCharsAux : Nat → Nat → List Char → List Char
  | 0, _, acc => acc
  | fuel + 1, n, acc =>
    if n < 10 then Nat.digitChar n :: acc
    else natCharsAux fuel (n / 10) (Nat.digitChar (n % 10) :: acc)

/-- Decimal rendering of a natural number, the model of format! on usize. -/
def natToStr (n : Nat) : String :=
  String.mk (natCharsAux (n + 1) n [])

/-- Numeric value of a decimal digit character. -/
def digitVal (c : Char) : Nat := c.toNat - 48

/-- Base-ten value of a digit string, used only to invert natToStr. -/
def charsVal (l : List Char) : Nat :=
  l.foldl (fun a c => a * 10 + digitVal c) 0

theorem charsVal_foldl_shift (l : List Char) :
    ∀ a : Nat, l.foldl (fun a c => a * 10 + digitVal c) a
      = a * 10 ^ l.length + charsVal l := by
  induction l with
  | nil => intro a; simp [charsVal]
  | cons c l ih =>
    intro a
    simp only [List.foldl_cons, List.length_cons, charsVal] at *
    rw [ih (a * 10 + digitVal c), ih (0 * 10 + digitVal c)]
    ring

theorem digitVal_digitChar {n : Nat} (h : n < 10) :
    digitVal (Nat.digitChar n) = n := by
  interval_cases n <;> rfl

theorem charsVal_cons (c : Char) (l : List Char) :
    charsVal (c :: l) = digitVal c * 10 ^ l.length + charsVal l := by
  simp only [charsVal, List.foldl_cons]
  rw [charsVal_foldl_shift]
  simp [charsVal]

theorem charsVal_natCharsAux :
    ∀ (fuel n : Nat) (acc : List Char), n < fuel →
      charsVal (natCharsAux fuel n acc) = n * 10 ^ acc.length + charsVal acc := by
  intro fuel
  induction fuel with
  | zero => intro n acc h; omega
  | succ fuel ih =>
    intro n acc h
    by_cases h10 : n < 10
    · simp only [natCharsAux, if_pos h10]
      rw [charsVal_cons, digitVal_digitChar h10]
    · have hn : 0 < n := by omega
      have hdiv : n / 10 < n := Nat.div_lt_self hn (by omega)
      have hfuel : n / 10 < fuel := by omega
      have hmod : n % 10 < 10 := Nat.mod_lt _ (by omega)
      simp only [natCharsAux, if_neg h10]
      rw [ih (n / 10) (Nat.digitChar (n % 10) :: acc) hfuel,
        charsVal_cons, digitVal_digitChar hmod, List.length_cons]
      have hn10 : n / 10 * 10 + n % 10 = n := by omega
      calc n / 10 * 10 ^ (acc.length + 1) + (n % 10 * 10 ^ acc.length + charsVal acc)
          = (n / 10 * 10 + n % 10) * 10 ^ acc.length + charsVal acc := by ring
        _ = n * 10 ^ acc.length + charsVal acc := by rw [hn10]

theorem charsVal_natToStr (n : Nat) : charsVal (natToStr n).data = n := by
  have := charsVal_natCharsAux (n + 1) n [] (Nat.lt_succ_self n)
  simpa [natToStr, charsVal] using this

theorem natToStr_injective : Function.Injective natToStr := by
  intro a b h
  have : charsVal (natToStr a).data = charsVal (natToStr b).data := by rw [h]
  rwa [charsVal_natToStr, charsVal_natToStr] at this

/- ===================== String primitives ===================== -/

/-- str::starts_with of Rust, modelled at the character level: a byte-level
prefix of one valid UTF-8 string by another coincides with the character
level test, because UTF-8 is self-synchronizing. -/
def str_starts_with (s p : String) : Bool :=
  p.data.isPrefixOf s.data

/-- Dropping the first character of a string: the model of the byte slice
selector[1..] in resolve_selector, where the dropped leading at sign is a
one-byte character. -/
def str_drop_head (s : String) : String :=
  String.mk (s.data.drop 1)

/-- str::is_empty of Rust. -/
def str_is_empty (s : String) : Bool :=
  s.data.isEmpty

/-- str::trim of Rust: strip leading and trailing whitespace.  Rust uses the
Unicode white-space class; the claims only exercise ordinary ASCII
whitespace, which Char.isWhitespace covers identically. -/
def str_trim (s : String) : String :=
  String.mk (((s.data.dropWhile Char.isWhitespace).reverse.dropWhile
    Char.isWhitespace).reverse)

/-- str::to_lowercase of Rust, character by character.  Every string the
lowercased result is compared against is plain ASCII, where the Unicode and
the ASCII lowering agree. -/
def str_to_lower (s : String) : String :=
  String.mk (s.data.map Char.toLower)

/- ===================== Selector resolution (client.rs:782-788) ===================== -/

/-- Resolve an at-e selector to a CSS selector (resolve_selector in the
source).  A selector beginning with the reference sigil is rewritten to the
attribute query on the per-element marker attribute, keeping everything after
the leading at sign; the byte slice in the source drops exactly the one-byte
at sign.  Anything else passes through unchanged. -/
def resolve_selector (selector : String) : String :=
  if str_starts_with selector "@e" then
    "[data-fgp-ref=\x27" ++ str_drop_head selector ++ "\x27]"
  else
    selector

/- ===================== Accessibility snapshot extractor (aria.rs) ===================== -/

/-- The reference identifier attached to the n-th delivered node
(format! at aria.rs:205 and aria.rs:240). -/
def refIdOf (n : Nat) : String := "@e" ++ natToStr n

theorem refIdOf_injective : Function.Injective refIdOf := by
  intro a b h
  apply natToStr_injective
  apply String.ext
  have hd := congrArg String.data h
  simp only [refIdOf, String.data_append] at hd
  exact List.append_cancel_left hd

/-- CDP AXValue: carries an optional JSON payload. -/
structure AxValue where
  value : Option Json
deriving DecidableEq, Repr

/-- The two CDP accessibility property names the extractor inspects; every
other property name is irrelevant to it and collapses into one case. -/
inductive AxPropertyName where
  | focusable
  | focused
  | otherName
deriving DecidableEq, Repr

instance : BEq AxPropertyName := ⟨fun a b => decide (a = b)⟩

/-- CDP AXProperty. -/
structure AxProperty where
  name : AxPropertyName
  value : AxValue
deriving DecidableEq, Repr

/-- CDP AXNode as far as the extractor reads it. -/
structure CdpAxNode where
  role : Option AxValue
  name : Option AxValue
  value : Option AxValue
  properties : Option (List AxProperty)
deriving DecidableEq, Repr

/-- Delivered accessibility node (models AriaNode in src/models.rs). -/
structure AriaNode where
  ref_id : String
  role : String
  name : Option String
  value : Option String
  focusable : Bool
  focused : Bool
  children : List AriaNode
deriving Repr

/-- json_as_str (aria.rs:107-109). -/
def json_as_str (v : Json) : Option String := v.asStr

/-- json_as_bool (aria.rs:112-114). -/
def json_as_bool (v : Json) : Option Bool := v.asBool

/-- The fixed allow-list of interactive and semantic roles
(the matches! arm in is_interactive_node, aria.rs:53-78). -/
def interactive_roles : List String :=
  ["button", "link", "textbox", "checkbox", "radio", "combobox", "listbox",
   "menuitem", "tab", "slider", "searchbox", "spinbutton", "switch", "option",
   "menuitemcheckbox", "menuitemradio", "treeitem", "heading", "img",
   "navigation", "main", "article", "section"]

/-- is_focusable (aria.rs:90-104): some property is named Focusable and its
value parses as true. -/
def is_focusable (node : CdpAxNode) : Bool :=
  (node.properties.map fun props =>
    props.any fun p =>
      p.name == AxPropertyName.focusable &&
        ((p.value.value.bind json_as_bool).getD false)).getD false

/-- The Focused analogue used inside convert_node_ref (aria.rs:276-289). -/
def is_focused_prop (node : CdpAxNode) : Bool :=
  (node.properties.map fun props =>
    props.any fun p =>
      p.name == AxPropertyName.focused &&
        ((p.value.value.bind json_as_bool).getD false)).getD false

/-- is_interactive_node (aria.rs:46-82). -/
def is_interactive_node (node : CdpAxNode) : Bool :=
  let role_match :=
    ((node.role.bind AxValue.value).map fun v =>
      interactive_roles.contains ((json_as_str v).getD "")).getD false
  role_match || is_focusable node

/-- has_role_or_name (aria.rs:84-88). -/
def has_role_or_name (node : CdpAxNode) : Bool :=
  (node.role.bind AxValue.value).isSome ||
  (node.name.bind AxValue.value).isSome ||
  (node.value.bind AxValue.value).isSome

/-- convert_node_ref (aria.rs:238-300): increments the extraction counter and
builds the flattened delivered node.  The counter is the &mut usize of the
source, threaded explicitly. -/
def convert_node_ref (node : CdpAxNode) (counter : Nat) : AriaNode × Nat :=
  let c := counter + 1
  ({ ref_id := refIdOf c
     role := (((node.role.bind AxValue.value).bind json_as_str).getD "unknown")
     name := (node.name.bind AxValue.value).bind json_as_str
     value := (node.value.bind AxValue.value).bind json_as_str
     focusable := is_focusable node
     focused := is_focused_prop node
     children := [] }, c)

/-- The native-pass filter loop of extract_aria_tree (aria.rs:23-27): walk the
CDP nodes in order, converting exactly those that pass the inclusion test. -/
def native_pass : List CdpAxNode → Nat → List AriaNode × Nat
  | [], c => ([], c)
  | n :: ns, c =>
    if is_interactive_node n || has_role_or_name n then
      let a := convert_node_ref n c
      let rest := native_pass ns a.2
      (a.1 :: rest.1, rest.2)
    else
      native_pass ns c

/-- One raw node produced by the DOM-walk script (struct DomSnapshotNode,
aria.rs:116-127). -/
structure DomSnapshotNode where
  role : String
  name : Option String
  value : Option String
  focusable : Bool
  focused : Bool
deriving DecidableEq, Repr

/-- The trim-and-normalize step applied to DOM names and values
(aria.rs:206-221): an empty trimmed string becomes absent. -/
def normalize_dom_text (o : Option String) : Option String :=
  o.bind fun s =>
    let trimmed := str_trim s
    if str_is_empty trimmed then none else some trimmed

/-- extract_dom_interactives after the script evaluation (aria.rs:200-232):
drop nodes with an empty role, assign the next reference identifier to each
kept node and normalize its name and value.  The script evaluation itself is
browser-side; its already-deserialized output is the input here. -/
def extract_dom_interactives : List DomSnapshotNode → Nat → List AriaNode × Nat
  | [], c => ([], c)
  | n :: ns, c =>
    if str_is_empty n.role then extract_dom_interactives ns c
    else
      let c1 := c + 1
      let node : AriaNode :=
        { ref_id := refIdOf c1
          role := n.role
          name := normalize_dom_text n.name
          value := normalize_dom_text n.value
          focusable := n.focusable
          focused := n.focused
          children := [] }
      let rest := extract_dom_interactives ns c1
      (node :: rest.1, rest.2)

/-- extract_aria_tree (aria.rs:14-43).  The first argument is the outcome of
the CDP GetFullAxTree round-trip: none models the Err branch of the if-let,
some gives the node list of the response.  The second argument is the
deserialized output of the DOM-walk script, consumed only on the fallback
path.  The counter starts at zero and, exactly as in the source, whatever it
is after the native pass is what the fallback continues from. -/
def extract_aria_tree (cdpResult : Option (List CdpAxNode))
    (domNodes : List DomSnapshotNode) : List AriaNode :=
  match cdpResult with
  | some axNodes =>
    let res := native_pass axNodes 0
    if res.1.isEmpty then (extract_dom_interactives domNodes res.2).1 else res.1
  | none => (extract_dom_interactives domNodes 0).1

/- ===================== Session registry (client.rs:27-198) ===================== -/

/-- A page handle: its identity plus the URL it was opened on. -/
structure Page where
  pid : Nat
  url : String
deriving DecidableEq, Repr

/-- BrowserSession (client.rs:28-32): context_id none means the default
browser context. -/
structure BrowserSession where
  id : String
  context_id : Option Nat
  page : Page
deriving DecidableEq, Repr

/-- The state of BrowserClient that the session operations touch: the session
registry (a map from identifier to session) and the identifier of the default
session.  nextContextId and nextPageId model the supply of fresh handles the
underlying browser hands out on create_browser_context and new_page. -/
structure ClientState where
  sessions : List (String × BrowserSession)
  default_session_id : String
  nextContextId : Nat
  nextPageId : Nat
deriving DecidableEq, Repr

/-- The error taxonomy of the session layer. -/
inductive BrowserError where
  | sessionNotFound (id : String)
  | protectedSession
deriving DecidableEq, Repr

/-- The session record built by create_session for a fresh identifier
(client.rs:134-151): a fresh isolated context and a page opened on
about:blank inside it. -/
def mk_new_session (st : ClientState) (sid : String) : BrowserSession :=
  { id := sid
    context_id := some st.nextContextId
    page := { pid := st.nextPageId, url := "about:blank" } }

/-- create_session (client.rs:120-157): if the identifier is already
registered, return it with nothing else done; otherwise allocate an isolated
context, open an about:blank page in it, register the pair and return the
identifier. -/
def create_session (st : ClientState) (sid : String) : ClientState × String :=
  if (st.sessions.lookup sid).isSome then (st, sid)
  else
    ({ st with
        sessions := (sid, mk_new_session st sid) :: st.sessions
        nextContextId := st.nextContextId + 1
        nextPageId := st.nextPageId + 1 }, sid)

/-- close_session (client.rs:160-178).  Returns the call outcome, the state
after the call, and the list of browser contexts disposed by the call.  The
guard against the default session fires before the registry is even locked;
removing an absent identifier is a silent no-op. -/
def close_session (st : ClientState) (sid : String) :
    Except BrowserError Unit × ClientState × List Nat :=
  if sid = st.default_session_id then (.error .protectedSession, st, [])
  else
    match st.sessions.lookup sid with
    | some s =>
      (.ok (), { st with sessions := st.sessions.filter (fun kv => kv.1 != sid) },
        match s.context_id with
        | some ctx => [ctx]
        | none => [])
    | none => (.ok (), st, [])

/-- get_page (client.rs:190-198): resolve the optional identifier to the
default when absent, then look the session up; an unknown identifier is an
error, never a lazy creation. -/
def get_page (st : ClientState) (session_id : Option String) :
    Except BrowserError Page :=
  let sid := session_id.getD st.default_session_id
  match st.sessions.lookup sid with
  | some s => .ok s.page
  | none => .error (.sessionNotFound sid)

/- ===================== Interaction primitives (client.rs:374-678) ===================== -/

/-- One step a client operation performs against the resolved page.  Script
payloads are kept structured: the source builds each script text by splicing
the JSON-encoded CSS selector (and value) into a fixed template, so the
selector and value arguments recorded here are exactly the data that varies
per call. -/
inductive PageAction where
  | findElement (css : String)
  | clickElement
  | typeText (v : String)
  | hoverElement
  | selectScript (css : String) (value : String)
  | checkScript (css : String) (checked : Bool)
  | scrollToScript (css : String)
  | scrollByScript (x : Int) (y : Int)
  | uploadValidateScript (css : String)
  | getDocument
  | domQuery (css : String)
  | setFiles (path : String)
  | keyEvent (isDown : Bool) (key : String) (modifiers : Nat)
deriving DecidableEq, Repr

/-- The CSS selector strings embedded in an action, in order. -/
def selectorsUsed : List PageAction → List String
  | [] => []
  | .findElement css :: rest => css :: selectorsUsed rest
  | .selectScript css _ :: rest => css :: selectorsUsed rest
  | .checkScript css _ :: rest => css :: selectorsUsed rest
  | .scrollToScript css :: rest => css :: selectorsUsed rest
  | .uploadValidateScript css :: rest => css :: selectorsUsed rest
  | .domQuery css :: rest => css :: selectorsUsed rest
  | _ :: rest => selectorsUsed rest

/-- click (client.rs:374-390): resolve, find, click. -/
def click_actions (selector : String) : List PageAction :=
  let css := resolve_selector selector
  [.findElement css, .clickElement]

/-- fill (client.rs:393-415): resolve, find, click, type. -/
def fill_actions (selector value : String) : List PageAction :=
  let css := resolve_selector selector
  [.findElement css, .clickElement, .typeText value]

/-- select (client.rs:447-478): resolve, then run the option-setting script
built around the resolved selector and the value. -/
def select_actions (selector value : String) : List PageAction :=
  let css := resolve_selector selector
  [.selectScript css value]

/-- check (client.rs:481-510). -/
def check_actions (selector : String) (checked : Bool) : List PageAction :=
  let css := resolve_selector selector
  [.checkScript css checked]

/-- hover (client.rs:513-525). -/
def hover_actions (selector : String) : List PageAction :=
  let css := resolve_selector selector
  [.findElement css, .hoverElement]

/-- scroll (client.rs:528-555): scroll a resolved element into view when a
selector is given, otherwise scroll the window by the offsets. -/
def scroll_actions (selector : Option String) (x y : Int) : List PageAction :=
  match selector with
  | some sel => [.scrollToScript (resolve_selector sel)]
  | none => [.scrollByScript x y]

/-- upload (client.rs:603-678): resolve once, validate the target through the
script, then fetch the document, query the same resolved selector and set the
file.  The up-front filesystem existence check precedes all of these and does
not involve the selector. -/
def upload_actions (selector path : String) : List PageAction :=
  let css := resolve_selector selector
  [.uploadValidateScript css, .getDocument, .domQuery css, .setFiles path]

/-- The per-name modifier bit of press_combo (client.rs:567-575): the match
on the lowercased name, one arm per recognized alias, everything else zero. -/
def modifier_bit (m : String) : Nat :=
  let lm := str_to_lower m
  if lm = "ctrl" then 1
  else if lm = "control" then 1
  else if lm = "shift" then 2
  else if lm = "alt" then 4
  else if lm = "meta" then 8
  else if lm = "cmd" then 8
  else if lm = "command" then 8
  else 0

/-- Names the modifier match recognizes. -/
def recognized_modifier (m : String) : Prop :=
  str_to_lower m ∈ ["ctrl", "control", "shift", "alt", "meta", "cmd", "command"]

instance (m : String) : Decidable (recognized_modifier m) := by
  unfold recognized_modifier
  infer_instance

/-- The combined modifier mask (the fold at client.rs:567-575).  The source
accumulates into an i64; every contribution is below 16, so the value and the
bitwise or never leave the small naturals. -/
def modifier_mask (modifiers : List String) : Nat :=
  modifiers.foldl (fun acc m => acc ||| modifier_bit m) 0

/-- press_combo (client.rs:558-600): one key-down and one key-up on the
target key, both carrying the combined mask. -/
def press_combo_actions (modifiers : List String) (key : String) :
    List PageAction :=
  let flags := modifier_mask modifiers
  [.keyEvent true key flags, .keyEvent false key flags]

/- ===================== Extension bridge (extension_bridge.rs) ===================== -/

/-- ConnectionState (extension_bridge.rs:50-54). -/
inductive ConnectionState where
  | Disconnected
  | Connected
deriving DecidableEq, Repr

/-- ExtensionResponse (extension_bridge.rs:38-47). -/
structure ExtensionResponse where
  id : String
  ok : Bool
  result : Option Json
  error : Option String
deriving DecidableEq, Repr

/-- The bridge state the call path touches: the connection state and the
pending-request table.  Each pending entry maps a correlation identifier to
its one-shot completion slot, modelled by a slot token. -/
structure BridgeState where
  connState : ConnectionState
  pending : List (String × Nat)
deriving DecidableEq, Repr

/-- The timeout window of call, in seconds
(Duration::from_secs(30), extension_bridge.rs:227). -/
def REQUEST_TIMEOUT : Nat := 30

/-- The response router spawned by start (extension_bridge.rs:173-181): a
response whose identifier has a pending slot removes that entry and delivers
to it; any other response is dropped. -/
def route_response (pending : List (String × Nat)) (respId : String) :
    List (String × Nat) × Option Nat :=
  match pending.lookup respId with
  | some slot => (pending.filter (fun kv => kv.1 != respId), some slot)
  | none => (pending, none)

/-- Outcome of one bridge call. -/
inductive CallOutcome where
  | delivered (slot : Nat)
  | errNotConnected
  | errTimeout
deriving DecidableEq, Repr

/-- call (extension_bridge.rs:198-233) together with the router it races.
id is the freshly generated correlation identifier and slot its one-shot
completion slot.  arrival says when (if ever) the matching response reaches
the router.  Mirrors the source paths: not connected fails immediately
(line 203-205) without registering anything; otherwise the slot is registered
(lines 215-219) and the caller waits at most REQUEST_TIMEOUT (line 227).  A
response inside the window is routed, which removes the entry and completes
the slot (lines 173-181).  If the window elapses first, the call fails with
the timeout error and returns without touching the table (lines 227-230 only
propagate the error).  The returned Nat is the elapsed wait. -/
def bridge_call (st : BridgeState) (id : String) (slot : Nat)
    (arrival : Option Nat) : (CallOutcome × Nat) × BridgeState :=
  if st.connState = ConnectionState.Connected then
    let pending1 := (id, slot) :: st.pending
    match arrival with
    | some t =>
      if t ≤ REQUEST_TIMEOUT then
        let (pending2, delivered) := route_response pending1 id
        (((match delivered with
           | some s => CallOutcome.delivered s
           | none => CallOutcome.errTimeout), t),
          { st with pending := pending2 })
      else
        ((CallOutcome.errTimeout, REQUEST_TIMEOUT), { st with pending := pending1 })
    | none =>
      ((CallOutcome.errTimeout, REQUEST_TIMEOUT), { st with pending := pending1 })
  else
    ((CallOutcome.errNotConnected, 0), st)

/- ===================== Dispatch layer parameter handling (service.rs) ===================== -/

/-- get_session_id (service.rs:136-142): first the session_id entry, else the
session alias, and only a JSON string survives as_str. -/
def get_session_id (params : List (String × Json)) : Option String :=
  (match params.lookup "session_id" with
   | some v => some v
   | none => params.lookup "session").bind Json.asStr

/-- The session resolution every handler performs: extract the optional
identifier from the params, hand it to get_page
(handler bodies in service.rs, client.rs:190-198). -/
def params_page (st : ClientState) (params : List (String × Json)) :
    Except BrowserError Page :=
  get_page st (get_session_id params)

/- ===================== Concrete fixtures for witnesses ===================== -/

/-- The default session as built at startup (client.rs:101-106). -/
def defaultSession : BrowserSession :=
  { id := "default", context_id := none, page := { pid := 0, url := "about:blank" } }

/-- A freshly started client: only the default session is registered
(client.rs:108-116). -/
def sampleState : ClientState :=
  { sessions := [("default", defaultSession)]
    default_session_id := "default"
    nextContextId := 0
    nextPageId := 1 }

/- ===================== Claims ===================== -/

/-- Claim C1: selector resolution is a total pure function on strings; a
selector beginning with the reference sigil at-e is rewritten to the
attribute query on data-fgp-ref keeping the selector without its leading at
sign, every other string is returned unchanged, and every selector-accepting
operation (click, fill, select, check, hover, scroll, upload) feeds its
selector through this one function. -/
theorem c1_selector_resolution :
    (∀ s : String, str_starts_with s "@e" →
      resolve_selector s = "[data-fgp-ref=\x27" ++ str_drop_head s ++ "\x27]") ∧
    (∀ s : String, ¬ str_starts_with s "@e" → resolve_selector s = s) ∧
    (∀ (sel v path : String) (b : Bool) (x y : Int),
      selectorsUsed (click_actions sel) = [resolve_selector sel] ∧
      selectorsUsed (fill_actions sel v) = [resolve_selector sel] ∧
      selectorsUsed (select_actions sel v) = [resolve_selector sel] ∧
      selectorsUsed (check_actions sel b) = [resolve_selector sel] ∧
      selectorsUsed (hover_actions sel) = [resolve_selector sel] ∧
      selectorsUsed (scroll_actions (some sel) x y) = [resolve_selector sel] ∧
      selectorsUsed (upload_actions sel path)
        = [resolve_selector sel, resolve_selector sel]) := by
  refine ⟨fun s h => ?_, fun s h => ?_, fun sel v path b x y => ?_⟩
  · simp [resolve_selector, h]
  · simp [resolve_selector, h]
  · exact ⟨rfl, rfl, rfl, rfl, rfl, rfl, rfl⟩

/-- Witness for C1 at concrete selectors on both branches. -/
theorem c1_selector_resolution_witness :
    resolve_selector "@e7" = "[data-fgp-ref=\x27" ++ str_drop_head "@e7" ++ "\x27]" ∧
    resolve_selector "div.item" = "div.item" :=
  ⟨c1_selector_resolution.1 "@e7" (by decide),
   c1_selector_resolution.2.1 "div.item" (by decide)⟩

/-- Claim C2: create_session is idempotent — an already-registered identifier
is returned unchanged with the registry untouched and no new context or page
allocated; an unknown identifier gets a fresh isolated context with an
about:blank page, is registered, and is returned. -/
theorem c2_create_session :
    ∀ (st : ClientState) (sid : String),
      ((st.sessions.lookup sid).isSome → create_session st sid = (st, sid)) ∧
      (st.sessions.lookup sid = none →
        create_session st sid =
          ({ st with
              sessions := (sid, mk_new_session st sid) :: st.sessions
              nextContextId := st.nextContextId + 1
              nextPageId := st.nextPageId + 1 }, sid)) := by
  intro st sid
  constructor
  · intro h
    simp [create_session, h]
  · intro h
    simp [create_session, h]

/-- Witness for C2: repeated creation of the already-present default session
is the identity, and creating a fresh identifier registers it. -/
theorem c2_create_session_witness :
    create_session sampleState "default" = (sampleState, "default") ∧
    create_session sampleState "work" =
      ({ sampleState with
          sessions := ("work", mk_new_session sampleState "work") :: sampleState.sessions
          nextContextId := sampleState.nextContextId + 1
          nextPageId := sampleState.nextPageId + 1 }, "work") :=
  ⟨(c2_create_session sampleState "default").1 (by decide),
   (c2_create_session sampleState "work").2 (by decide)⟩

/-- Claim C3: closing the default session always fails with the protected
session error, whatever else the registry holds, and the failed call leaves
the registry untouched and disposes no context. -/
theorem c3_close_default_protected :
    ∀ st : ClientState,
      close_session st st.default_session_id
        = (.error BrowserError.protectedSession, st, []) := by
  intro st
  simp [close_session]

/-- Claim C4: session resolution — an absent identifier resolves to the
default session (whose page is returned when it is registered), and a
supplied identifier that is not in the registry fails with the
session-not-found error rather than creating anything. -/
theorem c4_session_resolution :
    ∀ (st : ClientState) (sid : String) (s : BrowserSession),
      get_page st none = get_page st (some st.default_session_id) ∧
      (st.sessions.lookup st.default_session_id = some s →
        get_page st none = .ok s.page) ∧
      (st.sessions.lookup sid = none →
        get_page st (some sid) = .error (.sessionNotFound sid)) := by
  intro st sid s
  refine ⟨rfl, fun h => ?_, fun h => ?_⟩
  · simp [get_page, h]
  · simp [get_page, h]

/-- Witness for C4 on the freshly started client with an unknown id. -/
theorem c4_session_resolution_witness :
    get_page sampleState none = .ok defaultSession.page ∧
    get_page sampleState (some "ghost") = .error (.sessionNotFound "ghost") :=
  ⟨(c4_session_resolution sampleState "ghost" defaultSession).2.1 (by decide),
   (c4_session_resolution sampleState "ghost" defaultSession).2.2 (by decide)⟩

/-- Claim C10: when the params carry a session_id entry the session alias is
never consulted (session_id takes precedence), a non-string session_id value
is silently treated as absent so the operation runs against the default
session, and only when session_id is missing does the session alias apply. -/
theorem c10_param_session_handling :
    ∀ (st : ClientState) (params : List (String × Json)) (v : Json),
      (params.lookup "session_id" = some v →
        get_session_id params = v.asStr) ∧
      (params.lookup "session_id" = some v → v.asStr = none →
        params_page st params = get_page st none) ∧
      (params.lookup "session_id" = none →
        get_session_id params = (params.lookup "session").bind Json.asStr) := by
  intro st params v
  refine ⟨fun h => ?_, fun h hs => ?_, fun h => ?_⟩
  · simp [get_session_id, h]
  · simp [params_page, get_session_id, h, hs]
  · simp [get_session_id, h]

/-- Witness for C10: a numeric session_id alongside a string session alias is
treated as absent, so the call resolves to the default session. -/
theorem c10_param_session_handling_witness :
    get_session_id [("session_id", Json.num 123), ("session", Json.str "other")]
      = none ∧
    params_page sampleState
        [("session_id", Json.num 123), ("session", Json.str "other")]
      = get_page sampleState none :=
  ⟨(c10_param_session_handling sampleState
      [("session_id", Json.num 123), ("session", Json.str "other")]
      (Json.num 123)).1 (by decide),
   (c10_param_session_handling sampleState
      [("session_id", Json.num 123), ("session", Json.str "other")]
      (Json.num 123)).2.1 (by decide) (by decide)⟩

theorem lor_foldl_eq_foldr (l : List Nat) :
    ∀ a : Nat, l.foldl (· ||| ·) a = a ||| l.foldr (· ||| ·) 0 := by
  induction l with
  | nil => intro a; simp
  | cons b l ih =>
    intro a
    simp only [List.foldl_cons, List.foldr_cons, ih (a ||| b)]
    exact Nat.lor_assoc a b (l.foldr (· ||| ·) 0)

/-- Claim C8: the combined modifier mask of press_combo is the bitwise or of
the fixed bits Ctrl=1, Shift=2, Alt=4, Meta=8 of the recognized names, an
unrecognized name contributes zero without error, and the one mask is
attached to both the key-down and the key-up event on the target key. -/
theorem c8_press_combo_modifiers :
    ∀ (modifiers : List String) (key : String),
      press_combo_actions modifiers key
        = [.keyEvent true key (modifier_mask modifiers),
           .keyEvent false key (modifier_mask modifiers)] ∧
      modifier_mask modifiers
        = (modifiers.map modifier_bit).foldr (· ||| ·) 0 ∧
      (∀ m, ¬ recognized_modifier m → modifier_bit m = 0) ∧
      modifier_bit "ctrl" = 1 ∧ modifier_bit "shift" = 2 ∧
      modifier_bit "alt" = 4 ∧ modifier_bit "meta" = 8 := by
  intro modifiers key
  refine ⟨rfl, ?_, ?_, by decide, by decide, by decide, by decide⟩
  · show modifiers.foldl (fun acc m => acc ||| modifier_bit m) 0 = _
    rw [← List.foldl_map (f := modifier_bit) (g := (· ||| ·))]
    rw [lor_foldl_eq_foldr]
    simp
  · intro m h
    simp only [recognized_modifier, List.mem_cons, List.not_mem_nil, or_false,
      not_or] at h
    obtain ⟨h1, h2, h3, h4, h5, h6, h7⟩ := h
    simp [modifier_bit, h1, h2, h3, h4, h5, h6, h7]

/-- Witness for C8: an unrecognized modifier name contributes zero, shown by
applying the theorem at a concrete list and name. -/
theorem c8_press_combo_modifiers_witness :
    modifier_bit "Bogus" = 0 ∧
    press_combo_actions ["ctrl", "Bogus"] "a"
      = [.keyEvent true "a" (modifier_mask ["ctrl", "Bogus"]),
         .keyEvent false "a" (modifier_mask ["ctrl", "Bogus"])] :=
  ⟨(c8_press_combo_modifiers ["ctrl", "Bogus"] "a").2.2.1 "Bogus" (by decide),
   (c8_press_combo_modifiers ["ctrl", "Bogus"] "a").1⟩

/-- Claim C5 counterexample: on a connected bridge with an empty pending
table, a call whose matching response never arrives does fail with the
timeout error after exactly the 30-unit window, but the pending table still
holds the entry for the correlation identifier afterwards — the claimed
removal (no leak) is false. -/
theorem c5_counterexample :
    bridge_call ⟨ConnectionState.Connected, []⟩ "r1" 0 none
      = ((CallOutcome.errTimeout, 30), ⟨ConnectionState.Connected, [("r1", 0)]⟩) ∧
    ¬ ((bridge_call ⟨ConnectionState.Connected, []⟩ "r1" 0 none).2.pending.lookup "r1"
        = none) := by
  constructor
  · rfl
  · decide

/-- Claim C5 as amended: a sent bridge call whose matching response never
arrives fails with the timeout error after exactly the configured 30-unit
window, and the pending-table entry for its correlation identifier is left in
the table by the timeout path (it is removed only if a matching response
later arrives and is routed). -/
theorem c5_timeout_keeps_pending :
    ∀ (st : BridgeState) (id : String) (slot : Nat),
      st.connState = ConnectionState.Connected →
      bridge_call st id slot none
        = ((CallOutcome.errTimeout, REQUEST_TIMEOUT),
           { st with pending := (id, slot) :: st.pending }) ∧
      (bridge_call st id slot none).2.pending.lookup id = some slot := by
  intro st id slot h
  constructor
  · simp [bridge_call, h]
  · simp [bridge_call, h, List.lookup]

/-- Witness for C5 (amended) on a concrete connected bridge. -/
theorem c5_timeout_keeps_pending_witness :
    bridge_call ⟨ConnectionState.Connected, []⟩ "r2" 7 none
      = ((CallOutcome.errTimeout, REQUEST_TIMEOUT),
         ⟨ConnectionState.Connected, [("r2", 7)]⟩) ∧
    (bridge_call ⟨ConnectionState.Connected, []⟩ "r2" 7 none).2.pending.lookup "r2"
      = some 7 :=
  c5_timeout_keeps_pending ⟨ConnectionState.Connected, []⟩ "r2" 7 rfl

theorem native_pass_spec (l : List CdpAxNode) :
    ∀ c : Nat,
      ((native_pass l c).1.map AriaNode.ref_id
        = (List.range' (c + 1) (native_pass l c).1.length).map refIdOf) ∧
      (native_pass l c).2 = c + (native_pass l c).1.length := by
  induction l with
  | nil => intro c; simp [native_pass]
  | cons n ns ih =>
    intro c
    by_cases h : (is_interactive_node n || has_role_or_name n) = true
    · obtain ⟨h1, h2⟩ := ih (c + 1)
      simp only [native_pass, if_pos h, convert_node_ref, List.map_cons,
        List.length_cons]
      refine ⟨?_, by omega⟩
      rw [List.range'_succ, List.map_cons, h1]
    · simpa only [native_pass, if_neg h] using ih c

theorem dom_pass_spec (l : List DomSnapshotNode) :
    ∀ c : Nat,
      ((extract_dom_interactives l c).1.map AriaNode.ref_id
        = (List.range' (c + 1) (extract_dom_interactives l c).1.length).map refIdOf) ∧
      (extract_dom_interactives l c).2
        = c + (extract_dom_interactives l c).1.length := by
  induction l with
  | nil => intro c; simp [extract_dom_interactives]
  | cons n ns ih =>
    intro c
    by_cases h : str_is_empty n.role = true
    · simpa only [extract_dom_interactives, if_pos h] using ih c
    · obtain ⟨h1, h2⟩ := ih (c + 1)
      simp only [extract_dom_interactives, if_neg h, List.map_cons,
        List.length_cons]
      refine ⟨?_, by omega⟩
      rw [List.range'_succ, List.map_cons, h1]

theorem extract_refs_eq_range (cdp : Option (List CdpAxNode))
    (dom : List DomSnapshotNode) :
    (extract_aria_tree cdp dom).map AriaNode.ref_id
      = (List.range' 1 (extract_aria_tree cdp dom).length).map refIdOf := by
  match cdp with
  | none =>
    simpa only [extract_aria_tree, Nat.zero_add] using (dom_pass_spec dom 0).1
  | some ax =>
    by_cases hemp : (native_pass ax 0).1.isEmpty = true
    · have hnil : (native_pass ax 0).1 = [] := by
        cases hcase : (native_pass ax 0).1 with
        | nil => rfl
        | cons x xs => rw [hcase] at hemp; simp [List.isEmpty] at hemp
      have hc : (native_pass ax 0).2 = 0 := by
        have := (native_pass_spec ax 0).2
        rw [hnil] at this
        simpa using this
      simp only [extract_aria_tree, hemp, if_true, hc]
      simpa only [Nat.zero_add] using (dom_pass_spec dom 0).1
    · simp only [extract_aria_tree, if_neg hemp]
      simpa only [Nat.zero_add] using (native_pass_spec ax 0).1

/-- Claim C6: the delivered reference identifiers of one extraction are
exactly at-e-1, at-e-2, and so on in output order (so every extraction starts
again at at-e-1), and in particular they are pairwise distinct. -/
theorem c6_reference_sequence :
    ∀ (cdp : Option (List CdpAxNode)) (dom : List DomSnapshotNode),
      ((extract_aria_tree cdp dom).map AriaNode.ref_id
        = (List.range' 1 (extract_aria_tree cdp dom).length).map refIdOf) ∧
      ((extract_aria_tree cdp dom).map AriaNode.ref_id).Nodup ∧
      refIdOf 1 = "@e1" := by
  intro cdp dom
  have hmap := extract_refs_eq_range cdp dom
  refine ⟨hmap, ?_, by decide⟩
  rw [hmap]
  exact (List.nodup_range' _ _).map refIdOf_injective

/-- Claim C7: the DOM fallback result is delivered exactly when the native
accessibility pass failed or filtered down to zero nodes; whenever the native
pass keeps at least one node, its result is delivered and the fallback result
is not, so a snapshot comes from exactly one tier. -/
theorem c7_two_tier_strategy :
    ∀ (ax : List CdpAxNode) (dom : List DomSnapshotNode),
      extract_aria_tree (some ax) dom
        = (if (native_pass ax 0).1.isEmpty
            then (extract_dom_interactives dom 0).1
            else (native_pass ax 0).1) ∧
      extract_aria_tree none dom = (extract_dom_interactives dom 0).1 := by
  intro ax dom
  refine ⟨?_, rfl⟩
  by_cases hemp : (native_pass ax 0).1.isEmpty = true
  · have hnil : (native_pass ax 0).1 = [] := by
      cases hcase : (native_pass ax 0).1 with
      | nil => rfl
      | cons x xs => rw [hcase] at hemp; simp [List.isEmpty] at hemp
    have hc : (native_pass ax 0).2 = 0 := by
      have := (native_pass_spec ax 0).2
      rw [hnil] at this
      simpa using this
    simp only [extract_aria_tree, hemp, if_true, hc]
  · simp only [extract_aria_tree, if_neg hemp]

/-- A CDP node whose accessible name is present but the empty string: the
role puts it on the allow-list, so the native pass includes it. -/
def c9Node : CdpAxNode :=
  { role := some ⟨some (Json.str "button")⟩
    name := some ⟨some (Json.str "")⟩
    value := none
    properties := none }

/-- Claim C9 counterexample: a native-pass node with an empty-string
accessible name is delivered with name some-empty-string, not normalized to
absent, refuting the claim for the native tier. -/
theorem c9_counterexample :
    ((extract_aria_tree (some [c9Node]) []).map AriaNode.name = [some ""]) ∧
    ¬ (∀ a ∈ extract_aria_tree (some [c9Node]) [], a.name ≠ some "") := by
  have hfull : extract_aria_tree (some [c9Node]) []
      = [{ ref_id := refIdOf 1, role := "button", name := some "",
           value := none, focusable := false, focused := false,
           children := [] }] := by rfl
  rw [hfull]
  exact ⟨rfl, fun h => h _ (List.mem_singleton_self _) rfl⟩

theorem normalize_dom_text_ne_empty (o : Option String) :
    normalize_dom_text o ≠ some "" := by
  cases o with
  | none => simp [normalize_dom_text]
  | some s =>
    simp only [normalize_dom_text, Option.bind]
    by_cases h : str_is_empty (str_trim s) = true
    · simp [h]
    · simp only [if_neg h, ne_eq, Option.some.injEq]
      intro heq
      apply h
      rw [heq]
      rfl

/-- Claim C9 as amended: the empty-string-to-absent normalization of names
and values holds for every node produced by the DOM fallback pass (after
trimming); the native pass delivers names and values as the protocol
reports them, including empty strings. -/
theorem c9_dom_pass_normalizes :
    ∀ (dom : List DomSnapshotNode) (c : Nat) (a : AriaNode),
      a ∈ (extract_dom_interactives dom c).1 →
      a.name ≠ some "" ∧ a.value ≠ some "" := by
  intro dom
  induction dom with
  | nil => intro c a ha; simp [extract_dom_interactives] at ha
  | cons n ns ih =>
    intro c a ha
    by_cases hrole : str_is_empty n.role = true
    · rw [extract_dom_interactives, if_pos hrole] at ha
      exact ih c a ha
    · rw [extract_dom_interactives, if_neg hrole] at ha
      rcases List.mem_cons.mp ha with rfl | hmem
      · exact ⟨normalize_dom_text_ne_empty n.name,
          normalize_dom_text_ne_empty n.value⟩
      · exact ih (c + 1) a hmem

/-- A concrete DOM-walk result: a name that trims to nonempty and a value
that trims to empty. -/
def c9DomSample : List DomSnapshotNode :=
  [{ role := "link", name := some "  hi  ", value := some "   ",
     focusable := true, focused := false }]

/-- The node the fallback delivers for c9DomSample. -/
def c9OutNode : AriaNode :=
  { ref_id := refIdOf 1, role := "link", name := some "hi", value := none,
    focusable := true, focused := false, children := [] }

/-- Witness for amended C9 on a concrete DOM node. -/
theorem c9_dom_pass_normalizes_witness :
    c9OutNode.name ≠ some "" ∧ c9OutNode.value ≠ some "" :=
  c9_dom_pass_normalizes c9DomSample 0 c9OutNode
    (by rw [show (extract_dom_interactives c9DomSample 0).1 = [c9OutNode] from rfl]
        exact List.mem_singleton_self _)
